import Mathlib

/-
Verification of the query-processing core of the Gibson in-memory cache
server (src/src/query.c).  The C code is shallowly embedded: byte buffers
become `List Nat` (one entry per byte, values 0..255), the `gbItem` struct
becomes the `GbItem` structure, the prefix index (an external trie, not part
of query.c) is modelled from the spec as an association list of nodes, and
each request handler becomes a pure function from the server state and the
request payload to a reply together with the updated index.

Modelling conventions:
  * `time_t` / `long` fields are `Int`; `size_t` is `Nat`, with the one
    wrap-prone subtraction (`size - klen - 1` on `size_t`) made explicit
    through `sizeSub`, which computes modulo 2^64.
  * external collaborators (allocator statistics via `zmem_used`, the object
    pool, the LZF codec, the reply encoder) are outside the core; allocator
    counters are therefore not threaded through the handlers, and the LZF
    codec is a function parameter of the handlers that compress.
  * destroying an item and nulling its index slot (`node->data = NULL`)
    is modelled by writing `none` into the slot; `tr_remove` deletes the
    node entirely.
-/

set_option autoImplicit false

namespace Gibson

/-- Item payload encodings: GB_ENC_PLAIN, GB_ENC_LZF, GB_ENC_NUMBER. -/
inductive GbEnc where
  | plain
  | lzf
  | number
deriving DecidableEq

/-- The `void *data` word of a `gbItem`: either an owned byte buffer or an
inline integer (the source stores a `long` directly in the pointer when the
encoding is GB_ENC_NUMBER). -/
inductive GbData where
  | buf (bytes : List Nat)
  | num (n : Int)
deriving DecidableEq

/-- `(long)item->data`: reading the data word as an integer.  Meaningful
only when the encoding is GB_ENC_NUMBER, in which case the invariant of the
code guarantees the word holds an inline integer. -/
def GbData.asInt : GbData → Int
  | .num n => n
  | .buf _ => 0

/-- The owned byte buffer behind `item->data`.  Meaningful only for the
PLAIN and LZF encodings, where the word is a heap buffer. -/
def GbData.bytes : GbData → List Nat
  | .buf b => b
  | .num _ => []

/-- The `gbItem` struct of query.c: data word, size, encoding, creation
time (`time`), last access time, ttl and lock duration. -/
structure GbItem where
  data : GbData
  size : Nat
  encoding : GbEnc
  time : Int
  last_access_time : Int
  ttl : Int
  lock : Int
deriving DecidableEq

/-- The key index, modelled from the spec: an ordered associative container
mapping byte-string keys to nodes; a node's slot (`node->data`) holds an
item handle or NULL.  An entry `(k, none)` is a node whose slot was nulled. -/
abbrev Store := List (List Nat × Option GbItem)

/-- The slice of `gbServer` that the query handlers read: the key index,
the cached wall clock (`stats.time`), the allocator usage (`stats.memused`)
and the configured limits. -/
structure GbServer where
  tree : Store
  time : Int
  memused : Nat
  maxmem : Nat
  maxkeysize : Nat
  maxvaluesize : Nat
  maxitemttl : Int
  compression : Nat
deriving DecidableEq

/-- The reply a handler enqueues: a status code, a single item
(`gbClientEnqueueItem` with REPL_VAL), a NUMBER-encoded count
(`gbClientEnqueueData` with REPL_VAL / GB_ENC_NUMBER), or a key/value set
(`gbClientEnqueueKeyValueSet`). -/
inductive GbReply where
  | ok
  | err
  | notFound
  | nan
  | mem
  | locked
  | valItem (item : GbItem)
  | valNum (n : Nat)
  | valKV (pairs : List (List Nat × GbItem))
deriving DecidableEq

/-- `size_t` subtraction on a 64-bit platform: `a - b` modulo 2^64. -/
def sizeSub (a b : Nat) : Nat :=
  (((a : Int) - (b : Int)) % (2 ^ 64 : Int)).toNat

/-- The token scan loop shared by the parse functions: the number of leading
bytes that are not a space (0x20), visiting at most `bound` bytes. -/
def scanToken (buf : List Nat) (bound : Nat) : Nat :=
  ((buf.take bound).takeWhile (fun b => b ≠ 32)).length

/-- The digit-accumulation loop of gbQueryParseLong: consume bytes, failing
on the first byte outside ASCII 0-9, otherwise accumulating `n*10 + digit`. -/
def parseDigits : List Nat → Int → Option Int
  | [], n => some n
  | b :: rest, n =>
      if 48 ≤ b ∧ b ≤ 57 then parseDigits rest (n * 10 + ((b : Int) - 48))
      else none

/-- gbQueryParseLong (query.c:39): if the first byte is ASCII 0 it
short-circuits to zero; a leading minus sets the sign; every remaining byte
must be an ASCII digit.  The source asserts `vlen > 0`; the empty list is
mapped to failure. -/
def gbQueryParseLong (v : List Nat) : Option Int :=
  match v with
  | [] => none
  | c :: rest =>
      if c = 48 then some 0
      else if c = 45 then (parseDigits rest 0).map (fun n => -n)
      else parseDigits (c :: rest) 0

/-- The acceptance criterion in the spec's words: an optional leading minus
sign followed by ASCII digits only. -/
def parseAcceptSpec (v : List Nat) : Bool :=
  match v with
  | [] => false
  | c :: rest =>
      if c = 45 then rest.all (fun b => 48 ≤ b && b ≤ 57)
      else (c :: rest).all (fun b => 48 ≤ b && b ≤ 57)

/-- gbParseKeyValue (query.c:280) called with `value = NULL` (the shape used
by GET, DEL, INC/DEC, COUNT, KEYS, MDEL, MUNLOCK, MINC/MDEC): the key is the
leading run of non-space bytes, visiting at most `min size maxkeysize`
bytes; fails when the key is empty. -/
def gbParseKey (srv : GbServer) (buf : List Nat) : Option (List Nat) :=
  let e := min buf.length srv.maxkeysize
  let klen := scanToken buf e
  if klen = 0 then none else some (buf.take klen)

/-- gbParseKeyValue (query.c:280) with a required value: after the key scan,
`vlen = size - klen - 1` is computed in `size_t` arithmetic (it wraps when
the buffer holds no separator byte) and clamped to maxvaluesize; the parse
fails when the key is empty or the clamped vlen is zero.  The value bytes
are the bytes actually present after the separator (the source would read
`vlen` bytes from the buffer position unconditionally). -/
def gbParseKeyValueFull (srv : GbServer) (buf : List Nat) :
    Option (List Nat × List Nat) :=
  let size := buf.length
  let e := min size srv.maxkeysize
  let klen := scanToken buf e
  let vlen := min (sizeSub size (klen + 1)) srv.maxvaluesize
  if klen = 0 then none
  else if vlen = 0 then none
  else some (buf.take klen, (buf.drop (klen + 1)).take vlen)

/-- gbParseKeyAndOptionalValue (query.c:229): like the key/value parse, but
when no byte is left after the key (`left = size - klen = 0`) the value is
legally absent; when bytes are left, an empty clamped value is an error. -/
def gbParseKeyAndOptionalValue (srv : GbServer) (buf : List Nat) :
    Option (List Nat × Option (List Nat)) :=
  let size := buf.length
  let e := min size srv.maxkeysize
  let klen := scanToken buf e
  if klen = 0 then none
  else if size - klen > 0 then
    let vlen := min (size - klen - 1) srv.maxvaluesize
    if vlen = 0 then none
    else some (buf.take klen, some ((buf.drop (klen + 1)).take vlen))
  else some (buf.take klen, none)

/-- gbParseTtlKeyValue (query.c:320): scans a ttl token, then a key token
(the loop counter `i` keeps running across both scans, so ttl token, its
separator and the key together visit at most `min size maxkeysize` bytes),
then takes the remainder as the value with `size_t` arithmetic
`vlen = size - ttllen - klen - 2` clamped to maxvaluesize. -/
def gbParseTtlKeyValue (srv : GbServer) (buf : List Nat) :
    Option (List Nat × List Nat × List Nat) :=
  let size := buf.length
  let e := min size srv.maxkeysize
  let ttllen := scanToken buf e
  let klen := scanToken (buf.drop (ttllen + 1)) (e - (ttllen + 1))
  let vlen := min (sizeSub size (ttllen + klen + 2)) srv.maxvaluesize
  if ttllen = 0 then none
  else if klen = 0 then none
  else if vlen = 0 then none
  else some (buf.take ttllen,
             (buf.drop (ttllen + 1)).take klen,
             (buf.drop (ttllen + 1 + klen + 1)).take vlen)

/-- Modelled from the spec: pattern semantics of the external index — a
pattern ending in the wildcard byte 0x2a matches every key sharing the
prefix before the wildcard; any other pattern matches only the exact key. -/
def keyHasStem : List Nat → List Nat → Bool
  | [], _ => true
  | _ :: _, [] => false
  | a :: as, b :: bs => a = b && keyHasStem as bs

/-- Modelled from the spec: whether a key matches a search pattern. -/
def trMatch (pat key : List Nat) : Bool :=
  match pat.getLast? with
  | some 42 => keyHasStem pat.dropLast key
  | _ => pat = key

/-- Modelled from the spec: tr_find_node — look the key up in the index and
expose its node slot (`some slot` when the node exists; the slot itself may
be `none` after a removal nulled it). -/
def trFindNode : Store → List Nat → Option (Option GbItem)
  | [], _ => none
  | e :: rest, k => if e.1 = k then some e.2 else trFindNode rest k

/-- Modelled from the spec: tr_find — the item at the key, if any. -/
def trFind (s : Store) (k : List Nat) : Option GbItem :=
  (trFindNode s k).bind id

/-- Writing a value into an existing node's slot (`node->data = v`). -/
def setSlot (s : Store) (k : List Nat) (v : Option GbItem) : Store :=
  s.map (fun e => if e.1 = k then (e.1, v) else e)

/-- Modelled from the spec: tr_insert — store the item at the key, returning
the previous item of that node when one existed. -/
def trInsert (s : Store) (k : List Nat) (it : GbItem) : Option GbItem × Store :=
  match trFindNode s k with
  | some old => (old, setSlot s k (some it))
  | none => (none, s ++ [(k, some it)])

/-- Modelled from the spec: tr_remove — delete the key's node from the
index. -/
def trRemove (s : Store) (k : List Nat) : Store :=
  s.filter (fun e => ¬ e.1 = k)

/-- Modelled from the spec: the keys a pattern walk visits — the keys of the
matching nodes whose slots hold an item at the start of the walk. -/
def trWalkKeys (s : Store) (pat : List Nat) : List (List Nat) :=
  (s.filter (fun e => trMatch pat e.1 && e.2.isSome)).map (fun e => e.1)

/-- Modelled from the spec: tr_search_callback / tr_count — walk the nodes
matching the pattern, invoking the callback with the key and its item; the
callback may mutate the index (expired items are destroyed mid-walk) and
reports through its Bool whether the match counted.  Every call site in
query.c passes `limit = -1` (unlimited), so the limit is not a parameter. -/
def trSearchCallback (s : Store) (pat : List Nat)
    (cb : Store → List Nat → GbItem → Bool × Store) : Nat × Store :=
  (trWalkKeys s pat).foldl
    (fun acc k =>
      match trFind acc.2 k with
      | some item =>
          let r := cb acc.2 k item
          (acc.1 + (if r.1 then 1 else 0), r.2)
      | none => acc)
    (0, s)

/-- Modelled from the spec: tr_search — gather the matching keys and item
handles into the staging lists, visiting at most `limit` matches when
`limit ≥ 0` and all of them when `limit = -1`. -/
def trSearch (s : Store) (pat : List Nat) (limit : Int) :
    List (List Nat × GbItem) :=
  let ms := s.filterMap (fun e =>
    match e.2 with
    | some it => if trMatch pat e.1 then some (e.1, it) else none
    | none => none)
  if limit < 0 then ms else ms.take limit.toNat

/-- The expiry test shared by gbIsNodeStillValid (query.c:180) and
gbIsItemStillValid (query.c:204): `ttl > 0 && (now - item->time) >= ttl`. -/
def gbItemExpired (srv : GbServer) (item : GbItem) : Bool :=
  decide (0 < item.ttl ∧ item.ttl ≤ srv.time - item.time)

/-- gbItemIsLocked (query.c:171) as every handler calls it (`eta` argument
0, so `eta = stats.time - item->time`): locked iff the lock is -1 or the age
is below the lock duration. -/
def gbItemIsLocked (srv : GbServer) (item : GbItem) : Bool :=
  decide (item.lock = -1 ∨ srv.time - item.time < item.lock)

/-- gbCreateItem (query.c:113): a fresh item stamped with the server clock,
unlocked, with the given ttl.  The allocator statistics the source updates
here live outside the core and are not modelled. -/
def gbCreateItem (srv : GbServer) (data : GbData) (size : Nat)
    (enc : GbEnc) (ttl : Int) : GbItem :=
  { data := data, size := size, encoding := enc,
    time := srv.time, last_access_time := srv.time, ttl := ttl, lock := 0 }

/-- The LZF codec (external): given the raw bytes and the target maximum
compressed size, return the compressed bytes, or `none` when compression
does not gain enough (`lzf_compress` returning 0). -/
abbrev LzfCodec := List Nat → Nat → Option (List Nat)

/-- gbSingleSet (query.c:375): build the item for a value — attempting LZF
compression when the value is longer than the compression threshold, with a
target of `vlen - 4` bytes — and insert it at the key, destroying any
previous item of that node.  Returns the new item and the updated index. -/
def gbSingleSet (srv : GbServer) (lzf : LzfCodec) (tree : Store)
    (v k : List Nat) : GbItem × Store :=
  let enc_data :=
    if v.length > srv.compression then
      match lzf v (sizeSub v.length 4) with
      | none => (GbEnc.plain, GbData.buf v, v.length)
      | some compr => (GbEnc.lzf, GbData.buf compr, compr.length)
    else (GbEnc.plain, GbData.buf v, v.length)
  let item := gbCreateItem srv enc_data.2.1 enc_data.2.2 enc_data.1 (-1)
  (item, (trInsert tree k item).2)

/-- gbQueryGetHandler (query.c:634): parse the key, resolve the node; a
missing node or nulled slot replies NOT_FOUND; an expired item is destroyed
with its slot nulled (gbIsNodeStillValid with remove = 1) and the reply is
NOT_FOUND; otherwise the access time is touched and the item replied. -/
def gbQueryGetHandler (srv : GbServer) (p : List Nat) : GbReply × Store :=
  match gbParseKey srv p with
  | none => (GbReply.err, srv.tree)
  | some k =>
    match trFindNode srv.tree k with
    | some (some item) =>
        if gbItemExpired srv item then
          (GbReply.notFound, setSlot srv.tree k none)
        else
          let touched := { item with last_access_time := srv.time }
          (GbReply.valItem touched, setSlot srv.tree k (some touched))
    | _ => (GbReply.notFound, srv.tree)

/-- gbQuerySetHandler (query.c:427): admission check `memused <= maxmem`
(else MEM); parse ttl/key/value (else ERR); parse the ttl token (else NAN);
if the key currently holds a locked item reply LOCKED with no change —
note no expiry check is applied to the existing item; otherwise write the
new item via gbSingleSet and, when the parsed ttl is positive, reset its
creation time and clamp the ttl to maxitemttl; reply VAL with the item. -/
def gbQuerySetHandler (srv : GbServer) (lzf : LzfCodec) (p : List Nat) :
    GbReply × Store :=
  if srv.memused ≤ srv.maxmem then
    match gbParseTtlKeyValue srv p with
    | none => (GbReply.err, srv.tree)
    | some (t, k, v) =>
      match gbQueryParseLong t with
      | none => (GbReply.nan, srv.tree)
      | some ttl =>
          match trFind srv.tree k with
          | some item =>
              if gbItemIsLocked srv item then (GbReply.locked, srv.tree)
              else
                let r := gbSingleSet srv lzf srv.tree v k
                if 0 < ttl then
                  let item2 := { r.1 with time := srv.time,
                                          ttl := min srv.maxitemttl ttl }
                  (GbReply.valItem item2, setSlot r.2 k (some item2))
                else (GbReply.valItem r.1, r.2)
          | none =>
              let r := gbSingleSet srv lzf srv.tree v k
              if 0 < ttl then
                let item2 := { r.1 with time := srv.time,
                                        ttl := min srv.maxitemttl ttl }
                (GbReply.valItem item2, setSlot r.2 k (some item2))
              else (GbReply.valItem r.1, r.2)
  else (GbReply.mem, srv.tree)

/-- gbQueryDelHandler (query.c:741): parse the key and resolve the node; if
a node with an item exists, the lock check comes first (LOCKED); only then
does gbIsNodeStillValid run — an expired item is destroyed, its slot nulled
and the reply is NOT_FOUND; a valid item is destroyed, its slot nulled and
the reply is OK. -/
def gbQueryDelHandler (srv : GbServer) (p : List Nat) : GbReply × Store :=
  match gbParseKey srv p with
  | none => (GbReply.err, srv.tree)
  | some k =>
    match trFindNode srv.tree k with
    | some (some item) =>
        if gbItemIsLocked srv item then (GbReply.locked, srv.tree)
        else if gbItemExpired srv item then
          (GbReply.notFound, setSlot srv.tree k none)
        else (GbReply.ok, setSlot srv.tree k none)
    | _ => (GbReply.notFound, srv.tree)

/-- gbQueryIncDecHandler (query.c:825): on an absent item (no node, or a
node with a nulled slot) a fresh NUMBER item holding 1 is created — reusing
the node when one exists — and replied; an expired item is destroyed with
its slot nulled and NOT_FOUND replied; a locked item replies LOCKED; then
the access time is touched and the delta applied: in place for NUMBER,
promoting the buffer to an inline integer for a parseable PLAIN buffer
(size becomes the machine word), NAN otherwise. -/
def gbQueryIncDecHandler (srv : GbServer) (p : List Nat) (delta : Int) :
    GbReply × Store :=
  match gbParseKey srv p with
  | none => (GbReply.err, srv.tree)
  | some k =>
    let node := trFindNode srv.tree k
    match node.bind id with
    | none =>
        let item := gbCreateItem srv (GbData.num 1) 8 GbEnc.number (-1)
        let tree1 :=
          match node with
          | some _ => setSlot srv.tree k (some item)
          | none => (trInsert srv.tree k item).2
        (GbReply.valItem item, tree1)
    | some item =>
        if gbItemExpired srv item then
          (GbReply.notFound, setSlot srv.tree k none)
        else if gbItemIsLocked srv item then (GbReply.locked, srv.tree)
        else
          let item1 := { item with last_access_time := srv.time }
          if item1.encoding = GbEnc.number then
            let item2 := { item1 with data := GbData.num (item1.data.asInt + delta) }
            (GbReply.valItem item2, setSlot srv.tree k (some item2))
          else if item1.encoding = GbEnc.plain then
            match gbQueryParseLong item1.data.bytes with
            | some num =>
                let item2 := { item1 with encoding := GbEnc.number,
                                          data := GbData.num (num + delta),
                                          size := 8 }
                (GbReply.valItem item2, setSlot srv.tree k (some item2))
            | none => (GbReply.nan, setSlot srv.tree k (some item1))
          else (GbReply.nan, setSlot srv.tree k (some item1))

/-- gbMultiSetCallback (query.c:479): skip a locked match; skip an expired
match, destroying it (gbIsItemStillValid with remove = 1 calls tr_remove);
otherwise overwrite the item at that key with the shared value. -/
def gbMultiSetCallback (srv : GbServer) (lzf : LzfCodec) (v : List Nat)
    (tree : Store) (k : List Nat) (item : GbItem) : Bool × Store :=
  if gbItemIsLocked srv item then (false, tree)
  else if gbItemExpired srv item then (false, trRemove tree k)
  else (true, (gbSingleSet srv lzf tree v k).2)

/-- gbQueryMultiSetHandler (query.c:505): admission check
`memused <= maxmem` (else MEM); parse pattern/value (else ERR); walk the
matches with gbMultiSetCallback; a positive count is replied as a NUMBER
VAL, zero as NOT_FOUND. -/
def gbQueryMultiSetHandler (srv : GbServer) (lzf : LzfCodec) (p : List Nat) :
    GbReply × Store :=
  if srv.memused ≤ srv.maxmem then
    match gbParseKeyValueFull srv p with
    | none => (GbReply.err, srv.tree)
    | some (expr, v) =>
        let r := trSearchCallback srv.tree expr (gbMultiSetCallback srv lzf v)
        if 0 < r.1 then (GbReply.valNum r.1, r.2)
        else (GbReply.notFound, r.2)
  else (GbReply.mem, srv.tree)

/-- gbMultiTtlCallback (query.c:580): skip an expired match, destroying it;
otherwise touch both timestamps and set the clamped ttl. -/
def gbMultiTtlCallback (srv : GbServer) (ttlArg : Int)
    (tree : Store) (k : List Nat) (item : GbItem) : Bool × Store :=
  if gbItemExpired srv item then (false, trRemove tree k)
  else
    let item1 := { item with last_access_time := srv.time,
                             time := srv.time,
                             ttl := min srv.maxitemttl ttlArg }
    (true, setSlot tree k (some item1))

/-- gbQueryMultiTtlHandler (query.c:602): parse pattern/value (else ERR);
parse the ttl token (else NAN); walk the matches with gbMultiTtlCallback; a
positive count is replied as a NUMBER VAL, zero as NOT_FOUND.  The source
performs no memory admission check here. -/
def gbQueryMultiTtlHandler (srv : GbServer) (p : List Nat) :
    GbReply × Store :=
  match gbParseKeyValueFull srv p with
  | none => (GbReply.err, srv.tree)
  | some (expr, v) =>
    match gbQueryParseLong v with
    | none => (GbReply.nan, srv.tree)
    | some ttl =>
        let r := trSearchCallback srv.tree expr (gbMultiTtlCallback srv ttl)
        if 0 < r.1 then (GbReply.valNum r.1, r.2)
        else (GbReply.notFound, r.2)

/-- gbMultiIncDecCallback (query.c:898): skip a locked match; skip an
expired match, destroying it; otherwise touch the access time and apply the
delta exactly as the single-key handler does, skipping (without counting)
a PLAIN buffer that does not parse. -/
def gbMultiIncDecCallback (srv : GbServer) (delta : Int)
    (tree : Store) (k : List Nat) (item : GbItem) : Bool × Store :=
  if gbItemIsLocked srv item then (false, tree)
  else if gbItemExpired srv item then (false, trRemove tree k)
  else
    let item1 := { item with last_access_time := srv.time }
    if item1.encoding = GbEnc.number then
      let item2 := { item1 with data := GbData.num (item1.data.asInt + delta) }
      (true, setSlot tree k (some item2))
    else if item1.encoding = GbEnc.plain then
      match gbQueryParseLong item1.data.bytes with
      | some num =>
          let item2 := { item1 with encoding := GbEnc.number,
                                    data := GbData.num (num + delta),
                                    size := 8 }
          (true, setSlot tree k (some item2))
      | none => (false, setSlot tree k (some item1))
    else (true, setSlot tree k (some item1))

/-- gbQueryMultiIncDecHandler (query.c:942): parse the pattern (else ERR);
walk the matches with gbMultiIncDecCallback; a positive count is replied as
a NUMBER VAL, zero as NOT_FOUND.  The source performs no memory admission
check here. -/
def gbQueryMultiIncDecHandler (srv : GbServer) (p : List Nat) (delta : Int) :
    GbReply × Store :=
  match gbParseKey srv p with
  | none => (GbReply.err, srv.tree)
  | some expr =>
      let r := trSearchCallback srv.tree expr (gbMultiIncDecCallback srv delta)
      if 0 < r.1 then (GbReply.valNum r.1, r.2)
      else (GbReply.notFound, r.2)

/-- gbCountCallback (query.c:1139): an expired match is destroyed and not
counted; a valid match has its access time touched and counts. -/
def gbCountCallback (srv : GbServer)
    (tree : Store) (k : List Nat) (item : GbItem) : Bool × Store :=
  if gbItemExpired srv item then (false, trRemove tree k)
  else (true, setSlot tree k (some { item with last_access_time := srv.time }))

/-- gbQueryCountHandler (query.c:1159): parse the pattern (else ERR); count
the still-valid matches with gbCountCallback and reply VAL with the count —
unconditionally, also when the count is zero. -/
def gbQueryCountHandler (srv : GbServer) (p : List Nat) : GbReply × Store :=
  match gbParseKey srv p with
  | none => (GbReply.err, srv.tree)
  | some expr =>
      let r := trSearchCallback srv.tree expr (gbCountCallback srv)
      (GbReply.valNum r.1, r.2)

/-- The walk-and-filter body of gbQueryMultiGetHandler after the limit is
settled: gather up to `limit` matches with tr_search; during the second
pass an entry that expired is destroyed (gbIsItemStillValid with remove =
1) and dropped from the staged lists, the rest have their access time
touched; a non-empty remainder is replied as a key/value set, otherwise
NOT_FOUND. -/
def gbMultiGetWalk (srv : GbServer) (expr : List Nat) (limit : Int) :
    GbReply × Store :=
  let pairs := trSearch srv.tree expr limit
  if pairs.length = 0 then (GbReply.notFound, srv.tree)
  else
    let r := pairs.foldl
      (fun (acc : List (List Nat × GbItem) × Store) e =>
        if gbItemExpired srv e.2 then (acc.1, trRemove acc.2 e.1)
        else
          let touched := { e.2 with last_access_time := srv.time }
          (acc.1 ++ [(e.1, touched)], setSlot acc.2 e.1 (some touched)))
      ([], srv.tree)
    if r.1.length = 0 then (GbReply.notFound, r.2)
    else (GbReply.valKV r.1, r.2)

/-- gbQueryMultiGetHandler (query.c:665): parse `pattern [limit]` (else
ERR); when the optional second token is present it must parse as an integer
— otherwise the reply is NAN before any walk happens; when it is absent the
walk runs with limit -1 (unlimited). -/
def gbQueryMultiGetHandler (srv : GbServer) (p : List Nat) :
    GbReply × Store :=
  match gbParseKeyAndOptionalValue srv p with
  | none => (GbReply.err, srv.tree)
  | some (expr, vOpt) =>
    match vOpt with
    | some v =>
      match gbQueryParseLong v with
      | none => (GbReply.nan, srv.tree)
      | some limit => gbMultiGetWalk srv expr limit
    | none => gbMultiGetWalk srv expr (-1)

/-- Modelled from the spec: tr_search_nodes_callback — walk every node
matching the pattern (also nodes whose slot was nulled), invoking the
callback with the key and the node's slot content; the callback may mutate
the index and reports through its Bool whether the match counted. -/
def trSearchNodesCallback (s : Store) (pat : List Nat)
    (cb : Store → List Nat → Option GbItem → Bool × Store) : Nat × Store :=
  ((s.filter (fun e => trMatch pat e.1)).map (fun e => e.1)).foldl
    (fun acc k =>
      match trFindNode acc.2 k with
      | some slot =>
          let r := cb acc.2 k slot
          (acc.1 + (if r.1 then 1 else 0), r.2)
      | none => acc)
    (0, s)

/-- gbMultiDelCallback (query.c:778): the callback receives the node; a
nulled slot or a locked item does not count; then gbIsNodeStillValid with
remove = 1 runs — an expired item is destroyed with the slot nulled but
does not count, a valid item is destroyed with the slot nulled and
counts. -/
def gbMultiDelCallback (srv : GbServer) (tree : Store) (k : List Nat)
    (slot : Option GbItem) : Bool × Store :=
  match slot with
  | none => (false, tree)
  | some item =>
      if gbItemIsLocked srv item then (false, tree)
      else if gbItemExpired srv item then (false, setSlot tree k none)
      else (true, setSlot tree k none)

/-- gbQueryMultiDelHandler (query.c:802): parse the pattern (else ERR);
walk the matching nodes with gbMultiDelCallback; a positive count is
replied as a NUMBER VAL, zero as NOT_FOUND.  The source performs no memory
admission check here. -/
def gbQueryMultiDelHandler (srv : GbServer) (p : List Nat) :
    GbReply × Store :=
  match gbParseKey srv p with
  | none => (GbReply.err, srv.tree)
  | some expr =>
      let r := trSearchNodesCallback srv.tree expr (gbMultiDelCallback srv)
      if 0 < r.1 then (GbReply.valNum r.1, r.2)
      else (GbReply.notFound, r.2)

/-- gbMultiLockCallback (query.c:1015): the validity check runs first
(destroying an expired match via tr_remove, not counted); a still-locked
match is not counted; otherwise both timestamps are touched and the lock
set. -/
def gbMultiLockCallback (srv : GbServer) (locktime : Int)
    (tree : Store) (k : List Nat) (item : GbItem) : Bool × Store :=
  if gbItemExpired srv item then (false, trRemove tree k)
  else if gbItemIsLocked srv item then (false, tree)
  else
    let item1 := { item with last_access_time := srv.time,
                             time := srv.time, lock := locktime }
    (true, setSlot tree k (some item1))

/-- gbQueryMultiLockHandler (query.c:1038): parse pattern/value (else ERR);
parse the lock token (else NAN); walk the matches with gbMultiLockCallback;
a positive count is replied as a NUMBER VAL, zero as NOT_FOUND.  The source
performs no memory admission check here. -/
def gbQueryMultiLockHandler (srv : GbServer) (p : List Nat) :
    GbReply × Store :=
  match gbParseKeyValueFull srv p with
  | none => (GbReply.err, srv.tree)
  | some (expr, v) =>
    match gbQueryParseLong v with
    | none => (GbReply.nan, srv.tree)
    | some locktime =>
        let r := trSearchCallback srv.tree expr (gbMultiLockCallback srv locktime)
        if 0 < r.1 then (GbReply.valNum r.1, r.2)
        else (GbReply.notFound, r.2)

/-- gbMultiUnlockCallback (query.c:1097): an expired match is destroyed via
tr_remove and not counted; otherwise the lock is cleared, the access time
touched and the match counts. -/
def gbMultiUnlockCallback (srv : GbServer)
    (tree : Store) (k : List Nat) (item : GbItem) : Bool × Store :=
  if gbItemExpired srv item then (false, trRemove tree k)
  else (true, setSlot tree k
    (some { item with lock := 0, last_access_time := srv.time }))

/-- gbQueryMultiUnlockHandler (query.c:1116): parse the pattern (else ERR);
walk the matches with gbMultiUnlockCallback; a positive count is replied as
a NUMBER VAL, zero as NOT_FOUND. -/
def gbQueryMultiUnlockHandler (srv : GbServer) (p : List Nat) :
    GbReply × Store :=
  match gbParseKey srv p with
  | none => (GbReply.err, srv.tree)
  | some expr =>
      let r := trSearchCallback srv.tree expr (gbMultiUnlockCallback srv)
      if 0 < r.1 then (GbReply.valNum r.1, r.2)
      else (GbReply.notFound, r.2)

/-- gbCreateVolatileItem (query.c:78): a reply-staging item that never
entered the index — zero timestamps, ttl -1, unlocked. -/
def gbCreateVolatileItem (data : GbData) (size : Nat) (enc : GbEnc) : GbItem :=
  { data := data, size := size, encoding := enc,
    time := 0, last_access_time := 0, ttl := -1, lock := 0 }

/-- The ASCII decimal rendering an ordinal gets from `sprintf("%lu", i)`. -/
def natToDecimal (i : Nat) : List Nat :=
  (Nat.toDigits 10 i).map Char.toNat

/-- The keys gbQueryKeysHandler gathers: tr_search with limit -1 collects
the keys of the matching nodes that hold an item. -/
def keysGathered (srv : GbServer) (expr : List Nat) : List (List Nat) :=
  (trSearch srv.tree expr (-1)).map (fun e => e.1)

/-- The key/value set KEYS stages: the 0-based ordinal as a decimal string
paired with a volatile PLAIN item wrapping the key bytes
(query.c:1362-1368). -/
def keysReplyPairs (srv : GbServer) (expr : List Nat) :
    List (List Nat × GbItem) :=
  (keysGathered srv expr).enum.map (fun e =>
    (natToDecimal e.1, gbCreateVolatileItem (GbData.buf e.2) e.2.length GbEnc.plain))

/-- gbQueryKeysHandler (query.c:1341): parse the pattern (else ERR); gather
the matching keys with tr_search (limit -1); a non-empty result is replied
as the ordinal/key set, an empty one as NOT_FOUND.  The walk applies no
expiry filtering and the index is left untouched. -/
def gbQueryKeysHandler (srv : GbServer) (p : List Nat) : GbReply × Store :=
  match gbParseKey srv p with
  | none => (GbReply.err, srv.tree)
  | some expr =>
      if (keysGathered srv expr).length = 0 then (GbReply.notFound, srv.tree)
      else (GbReply.valKV (keysReplyPairs srv expr), srv.tree)

/-- The still-valid matches the MGET filter pass keeps: the first component
of the fold gbMultiGetWalk runs over the gathered pairs. -/
def mgetKept (srv : GbServer) (expr : List Nat) (limit : Int) :
    List (List Nat × GbItem) :=
  ((trSearch srv.tree expr limit).foldl
    (fun (acc : List (List Nat × GbItem) × Store) e =>
      if gbItemExpired srv e.2 then (acc.1, trRemove acc.2 e.1)
      else
        let touched := { e.2 with last_access_time := srv.time }
        (acc.1 ++ [(e.1, touched)], setSlot acc.2 e.1 (some touched)))
    ([], srv.tree)).1

/-- The index as the MGET filter pass leaves it: the second component of
the fold gbMultiGetWalk runs over the gathered pairs. -/
def mgetTree (srv : GbServer) (expr : List Nat) (limit : Int) : Store :=
  ((trSearch srv.tree expr limit).foldl
    (fun (acc : List (List Nat × GbItem) × Store) e =>
      if gbItemExpired srv e.2 then (acc.1, trRemove acc.2 e.1)
      else
        let touched := { e.2 with last_access_time := srv.time }
        (acc.1 ++ [(e.1, touched)], setSlot acc.2 e.1 (some touched)))
    ([], srv.tree)).2

/-- The found-count reply discipline shared by the mutating bulk handlers:
a positive count is replied as a NUMBER VAL together with the walked index,
a zero count as NOT_FOUND together with the walked index. -/
def foundReplyShape (r : Nat × Store) (out : GbReply × Store) : Prop :=
  (0 < r.1 → out = (GbReply.valNum r.1, r.2))
  ∧ (r.1 = 0 → out = (GbReply.notFound, r.2))

/-! Concrete fixtures used to exercise the handlers: a small server whose
clock reads 100, the key `foo`, and items in the states the claims single
out. -/

/-- An LZF codec that never gains enough compression. -/
def noLzf : LzfCodec := fun _ _ => none

/-- A small server: clock at 100, 10 bytes used of a 1000-byte budget. -/
def srvBase : GbServer :=
  { tree := [], time := 100, memused := 10, maxmem := 1000,
    maxkeysize := 32, maxvaluesize := 64, maxitemttl := 2592000,
    compression := 64 }

/-- The bytes of the key `foo`. -/
def keyFoo : List Nat := [102, 111, 111]

/-- A PLAIN item holding `bar`, created at time 0 with ttl 10: expired once
the clock reads 100. -/
def itemBar : GbItem :=
  { data := GbData.buf [98, 97, 114], size := 3, encoding := GbEnc.plain,
    time := 0, last_access_time := 0, ttl := 10, lock := 0 }

/-- The expired `bar` item, additionally locked forever (`lock = -1`). -/
def itemBarLockedExpired : GbItem := { itemBar with lock := -1 }

/-- A `bar` item that never expires and is unlocked. -/
def itemImmortal : GbItem := { itemBar with ttl := -1 }

/-- A PLAIN item holding the non-numeric bytes `ab`, last accessed at 50. -/
def itemAb : GbItem :=
  { data := GbData.buf [97, 98], size := 2, encoding := GbEnc.plain,
    time := 0, last_access_time := 50, ttl := -1, lock := 0 }

/-- The server holding the expired `bar` item at `foo`. -/
def srvExpired : GbServer := { srvBase with tree := [(keyFoo, some itemBar)] }

/-- The server holding the expired and forever-locked item at `foo`. -/
def srvLockedExpired : GbServer :=
  { srvBase with tree := [(keyFoo, some itemBarLockedExpired)] }

/-- The server holding the non-numeric `ab` item at `foo`. -/
def srvAb : GbServer := { srvBase with tree := [(keyFoo, some itemAb)] }

/-- A PLAIN item holding the digits `42`, last accessed at 50. -/
def itemFortyTwo : GbItem := { itemAb with data := GbData.buf [52, 50] }

/-- The server holding the numeric-text `42` item at `foo`. -/
def srvFortyTwo : GbServer :=
  { srvBase with tree := [(keyFoo, some itemFortyTwo)] }

/-- A server over its memory budget (memused 5000 > maxmem 1000) holding a
valid unlocked item at `foo`. -/
def srvHot : GbServer :=
  { srvBase with memused := 5000, tree := [(keyFoo, some itemImmortal)] }

/-- The SET payload `10 foo bar`. -/
def payloadSetFooBar : List Nat := [49, 48, 32, 102, 111, 111, 32, 98, 97, 114]

/-- The payload `foo 5` (pattern `foo`, value `5`). -/
def payloadFooFive : List Nat := [102, 111, 111, 32, 53]

/-- The payload `k` (a pattern matching nothing in the fixtures). -/
def payloadPatK : List Nat := [107]

/-- The payload `k* q`: pattern `k*` with the non-numeric limit token `q`. -/
def payloadPatKStarQ : List Nat := [107, 42, 32, 113]

/-- The payload `k*` with no limit token. -/
def payloadPatKStar : List Nat := [107, 42]

/-! Helper lemmas about the index model. -/

theorem trFindNode_setSlot_self (s : Store) (k : List Nat) (v : Option GbItem)
    (h : (trFindNode s k).isSome) :
    trFindNode (setSlot s k v) k = some v := by
  induction s with
  | nil => simp [trFindNode] at h
  | cons e rest ih =>
      by_cases hek : e.1 = k
      · simp [setSlot, trFindNode, hek]
      · simp only [trFindNode, hek, if_false] at h
        have hrest := ih h
        simp only [setSlot] at hrest
        simp [setSlot, trFindNode, hek, hrest]

theorem trFindNode_append_self (s : Store) (k : List Nat) (v : Option GbItem)
    (h : trFindNode s k = none) :
    trFindNode (s ++ [(k, v)]) k = some v := by
  induction s with
  | nil => simp [trFindNode]
  | cons e rest ih =>
      by_cases hek : e.1 = k
      · simp [trFindNode, hek] at h
      · simp only [trFindNode, hek, if_false] at h
        simp [trFindNode, hek, ih h]

theorem parseDigits_isSome (l : List Nat) : ∀ n : Int,
    (parseDigits l n).isSome = l.all (fun b => 48 ≤ b && b ≤ 57) := by
  induction l with
  | nil => intro n; rfl
  | cons b rest ih =>
      intro n
      by_cases h : 48 ≤ b ∧ b ≤ 57
      · simp [parseDigits, h, ih, h.1, h.2]
      · rw [Decidable.not_and_iff_or_not] at h
        rcases h with h | h <;> simp [parseDigits, h]

theorem foundReplyShape_if (r : Nat × Store) :
    foundReplyShape r
      (if 0 < r.1 then (GbReply.valNum r.1, r.2) else (GbReply.notFound, r.2)) := by
  constructor
  · intro h; simp [h]
  · intro h; simp [h]

theorem gbMultiGetWalk_eq (srv : GbServer) (expr : List Nat) (limit : Int) :
    gbMultiGetWalk srv expr limit =
      if (trSearch srv.tree expr limit).length = 0 then
        (GbReply.notFound, srv.tree)
      else if (mgetKept srv expr limit).length = 0 then
        (GbReply.notFound, mgetTree srv expr limit)
      else
        (GbReply.valKV (mgetKept srv expr limit), mgetTree srv expr limit) :=
  rfl

theorem gbMultiGetWalk_shape (srv : GbServer) (expr : List Nat) (limit : Int) :
    (mgetKept srv expr limit = [] →
      (gbMultiGetWalk srv expr limit).1 = GbReply.notFound)
    ∧ (mgetKept srv expr limit ≠ [] →
      (gbMultiGetWalk srv expr limit).1 = GbReply.valKV (mgetKept srv expr limit)) := by
  rw [gbMultiGetWalk_eq]
  constructor
  · intro h
    by_cases hp : (trSearch srv.tree expr limit).length = 0
    · simp [hp]
    · simp [hp, h]
  · intro h
    have hk : ¬ (mgetKept srv expr limit).length = 0 := by
      rw [List.length_eq_zero]; exact h
    by_cases hp : (trSearch srv.tree expr limit).length = 0
    · exfalso
      apply h
      unfold mgetKept
      rw [List.length_eq_zero] at hp
      rw [hp]
      rfl
    · simp [hp, hk]

/-! Claim theorems. -/

/-- C1: expiry determinism — a GET resolving an item with `ttl > 0` at a
clock `now` with `now - created_time ≥ ttl` replies NOT_FOUND, destroying
the item and nulling its index slot; an item with `ttl ≤ 0` is never
treated as expired, so the same GET replies VAL with the touched item and
the slot keeps it. -/
theorem get_expired_item_not_found (srv : GbServer) (p k : List Nat)
    (item : GbItem)
    (hp : gbParseKey srv p = some k)
    (hs : trFindNode srv.tree k = some (some item)) :
    (0 < item.ttl → item.ttl ≤ srv.time - item.time →
      gbQueryGetHandler srv p = (GbReply.notFound, setSlot srv.tree k none))
    ∧ (item.ttl ≤ 0 →
      gbQueryGetHandler srv p =
        (GbReply.valItem { item with last_access_time := srv.time },
         setSlot srv.tree k (some { item with last_access_time := srv.time }))) := by
  unfold gbQueryGetHandler
  simp only [hp, hs]
  constructor
  · intro h1 h2
    have hex : gbItemExpired srv item = true := by
      simp only [gbItemExpired, decide_eq_true_eq]
      exact ⟨h1, h2⟩
    simp [hex]
  · intro h1
    have hex : gbItemExpired srv item = false := by
      simp only [gbItemExpired, decide_eq_false_iff_not]
      omega
    simp [hex]

/-- C1 witness: the expired `bar` item at `foo` makes GET reply NOT_FOUND
and null the slot. -/
theorem get_expired_item_not_found_witness :
    gbQueryGetHandler srvExpired keyFoo =
      (GbReply.notFound, setSlot srvExpired.tree keyFoo none) :=
  (get_expired_item_not_found srvExpired keyFoo keyFoo itemBar
    (by decide) (by decide)).1 (by decide) (by decide)

/-- C9: SET applies no expiry check to the existing item — when the item at
the key is both expired and still marked locked, SET replies LOCKED, the
expired item stays in the index untouched, and no new item is written. -/
theorem set_no_expiry_check (srv : GbServer) (lzf : LzfCodec)
    (p t k v : List Nat) (item : GbItem) (ttl : Int)
    (hmem : srv.memused ≤ srv.maxmem)
    (hp : gbParseTtlKeyValue srv p = some (t, k, v))
    (ht : gbQueryParseLong t = some ttl)
    (hf : trFind srv.tree k = some item)
    (_hexp : gbItemExpired srv item = true)
    (hl : gbItemIsLocked srv item = true) :
    gbQuerySetHandler srv lzf p = (GbReply.locked, srv.tree) ∧
    trFind (gbQuerySetHandler srv lzf p).2 k = some item := by
  have h : gbQuerySetHandler srv lzf p = (GbReply.locked, srv.tree) := by
    unfold gbQuerySetHandler
    simp [hmem, hp, ht, hf, hl]
  exact ⟨h, by rw [h]; exact hf⟩

/-- C9 witness: SET `10 foo bar` against the expired, forever-locked item:
LOCKED, and the expired item survives at `foo`. -/
theorem set_no_expiry_check_witness :
    gbQuerySetHandler srvLockedExpired noLzf payloadSetFooBar =
      (GbReply.locked, srvLockedExpired.tree) ∧
    trFind (gbQuerySetHandler srvLockedExpired noLzf payloadSetFooBar).2 keyFoo =
      some itemBarLockedExpired :=
  set_no_expiry_check srvLockedExpired noLzf payloadSetFooBar
    [49, 48] keyFoo [98, 97, 114] itemBarLockedExpired 10
    (by decide) (by decide) (by decide) (by decide) (by decide) (by decide)

/-- C3 counterexample: on a server with `memused > maxmem`, the mutating
bulk op MTTL (payload `foo 5`) does not reply MEM — it replies VAL 1 and
mutates the matched item's ttl and timestamps. -/
theorem mttl_mutates_over_maxmem :
    srvHot.maxmem < srvHot.memused ∧
    gbQueryMultiTtlHandler srvHot payloadFooFive =
      (GbReply.valNum 1,
       [(keyFoo, some { itemImmortal with time := 100, last_access_time := 100,
                                          ttl := 5 })]) ∧
    GbReply.valNum 1 ≠ GbReply.mem ∧
    [(keyFoo, some { itemImmortal with time := 100, last_access_time := 100,
                                       ttl := 5 })] ≠ srvHot.tree := by
  decide

/-- C3 amended: among the mutating bulk ops only MSET performs the memory
admission check, replying MEM and mutating nothing when
`memused > maxmem`; MTTL, MINC/MDEC, MDEL and MLOCK have no memory check —
their result is entirely independent of `memused`. -/
theorem bulk_memory_admission_amended (srv : GbServer) (lzf : LzfCodec)
    (p : List Nat) :
    (srv.maxmem < srv.memused →
      gbQueryMultiSetHandler srv lzf p = (GbReply.mem, srv.tree))
    ∧ (∀ m, gbQueryMultiTtlHandler { srv with memused := m } p =
        gbQueryMultiTtlHandler srv p)
    ∧ (∀ m delta, gbQueryMultiIncDecHandler { srv with memused := m } p delta =
        gbQueryMultiIncDecHandler srv p delta)
    ∧ (∀ m, gbQueryMultiDelHandler { srv with memused := m } p =
        gbQueryMultiDelHandler srv p)
    ∧ (∀ m, gbQueryMultiLockHandler { srv with memused := m } p =
        gbQueryMultiLockHandler srv p) := by
  refine ⟨?_, fun m => rfl, fun m delta => rfl, fun m => rfl, fun m => rfl⟩
  intro hmem
  unfold gbQueryMultiSetHandler
  have h : ¬ srv.memused ≤ srv.maxmem := by omega
  simp [h]

/-- C3 amended witness: the over-budget server srvHot — MSET replies MEM
with nothing changed, while MTTL, MDEL and MLOCK on the same server behave
exactly as on a zero-usage copy. -/
theorem bulk_memory_admission_amended_witness :
    gbQueryMultiSetHandler srvHot noLzf payloadFooFive =
      (GbReply.mem, srvHot.tree) ∧
    gbQueryMultiTtlHandler { srvHot with memused := 0 } payloadFooFive =
      gbQueryMultiTtlHandler srvHot payloadFooFive ∧
    gbQueryMultiDelHandler { srvHot with memused := 0 } keyFoo =
      gbQueryMultiDelHandler srvHot keyFoo ∧
    gbQueryMultiLockHandler { srvHot with memused := 0 } payloadFooFive =
      gbQueryMultiLockHandler srvHot payloadFooFive :=
  ⟨(bulk_memory_admission_amended srvHot noLzf payloadFooFive).1 (by decide),
   (bulk_memory_admission_amended srvHot noLzf payloadFooFive).2.1 0,
   (bulk_memory_admission_amended srvHot noLzf keyFoo).2.2.2.1 0,
   (bulk_memory_admission_amended srvHot noLzf payloadFooFive).2.2.2.2 0⟩

/-- C4 counterexample: COUNT with a pattern matching nothing replies VAL
with the count 0, not NOT_FOUND. -/
theorem count_zero_matches_replies_val :
    gbQueryCountHandler srvBase payloadPatK = (GbReply.valNum 0, srvBase.tree) ∧
    GbReply.valNum 0 ≠ GbReply.notFound := by
  decide

/-- C4 amended: COUNT replies VAL with the counted-match total
unconditionally — also when the total is 0 — while every other bulk op
follows the claimed shape: the mutating walks MSET (once memory is
admitted), MTTL, MINC/MDEC, MDEL, MLOCK and MUNLOCK reply VAL with the
NUMBER count when it is positive and NOT_FOUND when it is zero, and
MGET/KEYS reply VAL with a key/value set when the gathered total is
positive and NOT_FOUND when it is zero. -/
theorem bulk_reply_shape_amended (srv : GbServer) (lzf : LzfCodec)
    (p : List Nat) :
    (∀ expr, gbParseKey srv p = some expr →
      gbQueryCountHandler srv p =
        (GbReply.valNum (trSearchCallback srv.tree expr (gbCountCallback srv)).1,
         (trSearchCallback srv.tree expr (gbCountCallback srv)).2))
    ∧ (∀ expr v, srv.memused ≤ srv.maxmem →
        gbParseKeyValueFull srv p = some (expr, v) →
        foundReplyShape (trSearchCallback srv.tree expr (gbMultiSetCallback srv lzf v))
          (gbQueryMultiSetHandler srv lzf p))
    ∧ (∀ expr v ttl, gbParseKeyValueFull srv p = some (expr, v) →
        gbQueryParseLong v = some ttl →
        foundReplyShape (trSearchCallback srv.tree expr (gbMultiTtlCallback srv ttl))
          (gbQueryMultiTtlHandler srv p))
    ∧ (∀ expr delta, gbParseKey srv p = some expr →
        foundReplyShape (trSearchCallback srv.tree expr (gbMultiIncDecCallback srv delta))
          (gbQueryMultiIncDecHandler srv p delta))
    ∧ (∀ expr, gbParseKey srv p = some expr →
        foundReplyShape (trSearchNodesCallback srv.tree expr (gbMultiDelCallback srv))
          (gbQueryMultiDelHandler srv p))
    ∧ (∀ expr v locktime, gbParseKeyValueFull srv p = some (expr, v) →
        gbQueryParseLong v = some locktime →
        foundReplyShape (trSearchCallback srv.tree expr (gbMultiLockCallback srv locktime))
          (gbQueryMultiLockHandler srv p))
    ∧ (∀ expr, gbParseKey srv p = some expr →
        foundReplyShape (trSearchCallback srv.tree expr (gbMultiUnlockCallback srv))
          (gbQueryMultiUnlockHandler srv p))
    ∧ (∀ expr limit,
        (mgetKept srv expr limit = [] →
          (gbMultiGetWalk srv expr limit).1 = GbReply.notFound)
        ∧ (mgetKept srv expr limit ≠ [] →
          (gbMultiGetWalk srv expr limit).1 = GbReply.valKV (mgetKept srv expr limit)))
    ∧ (∀ expr, gbParseKey srv p = some expr →
        ((keysGathered srv expr).length = 0 →
          gbQueryKeysHandler srv p = (GbReply.notFound, srv.tree))
        ∧ (0 < (keysGathered srv expr).length →
          gbQueryKeysHandler srv p =
            (GbReply.valKV (keysReplyPairs srv expr), srv.tree))) := by
  refine ⟨?_, ?_, ?_, ?_, ?_, ?_, ?_, ?_, ?_⟩
  · intro expr hp
    unfold gbQueryCountHandler
    simp [hp]
  · intro expr v hmem hp
    unfold gbQueryMultiSetHandler
    rw [if_pos hmem, hp]
    exact foundReplyShape_if _
  · intro expr v ttl hp hv
    unfold gbQueryMultiTtlHandler
    rw [hp]
    simp only [hv]
    exact foundReplyShape_if _
  · intro expr delta hp
    unfold gbQueryMultiIncDecHandler
    rw [hp]
    exact foundReplyShape_if _
  · intro expr hp
    unfold gbQueryMultiDelHandler
    rw [hp]
    exact foundReplyShape_if _
  · intro expr v locktime hp hv
    unfold gbQueryMultiLockHandler
    rw [hp]
    simp only [hv]
    exact foundReplyShape_if _
  · intro expr hp
    unfold gbQueryMultiUnlockHandler
    rw [hp]
    exact foundReplyShape_if _
  · intro expr limit
    exact gbMultiGetWalk_shape srv expr limit
  · intro expr hp
    unfold gbQueryKeysHandler
    rw [hp]
    constructor
    · intro h0; simp [h0]
    · intro hpos
      have h0 : ¬ (keysGathered srv expr).length = 0 := by omega
      simp [h0]

/-- C4 amended witness: COUNT over an empty index replies VAL 0; MSET with
one mutated match replies VAL 1 and with no matching key NOT_FOUND; MTTL,
MINC, MDEL, MLOCK and MUNLOCK each reply VAL 1 on one counted match; the
MGET walk with one surviving match replies its key/value set; KEYS with one
matching key replies its ordinal/key set. -/
theorem bulk_reply_shape_amended_witness :
    gbQueryCountHandler srvBase payloadPatK =
      (GbReply.valNum (trSearchCallback srvBase.tree payloadPatK (gbCountCallback srvBase)).1,
       (trSearchCallback srvBase.tree payloadPatK (gbCountCallback srvBase)).2) ∧
    gbQueryMultiSetHandler srvAb noLzf payloadFooFive =
      (GbReply.valNum (trSearchCallback srvAb.tree keyFoo (gbMultiSetCallback srvAb noLzf [53])).1,
       (trSearchCallback srvAb.tree keyFoo (gbMultiSetCallback srvAb noLzf [53])).2) ∧
    gbQueryMultiSetHandler srvBase noLzf payloadFooFive =
      (GbReply.notFound,
       (trSearchCallback srvBase.tree keyFoo (gbMultiSetCallback srvBase noLzf [53])).2) ∧
    gbQueryMultiTtlHandler srvAb payloadFooFive =
      (GbReply.valNum (trSearchCallback srvAb.tree keyFoo (gbMultiTtlCallback srvAb 5)).1,
       (trSearchCallback srvAb.tree keyFoo (gbMultiTtlCallback srvAb 5)).2) ∧
    gbQueryMultiIncDecHandler srvFortyTwo keyFoo 1 =
      (GbReply.valNum (trSearchCallback srvFortyTwo.tree keyFoo (gbMultiIncDecCallback srvFortyTwo 1)).1,
       (trSearchCallback srvFortyTwo.tree keyFoo (gbMultiIncDecCallback srvFortyTwo 1)).2) ∧
    gbQueryMultiDelHandler srvAb keyFoo =
      (GbReply.valNum (trSearchNodesCallback srvAb.tree keyFoo (gbMultiDelCallback srvAb)).1,
       (trSearchNodesCallback srvAb.tree keyFoo (gbMultiDelCallback srvAb)).2) ∧
    gbQueryMultiLockHandler srvAb payloadFooFive =
      (GbReply.valNum (trSearchCallback srvAb.tree keyFoo (gbMultiLockCallback srvAb 5)).1,
       (trSearchCallback srvAb.tree keyFoo (gbMultiLockCallback srvAb 5)).2) ∧
    gbQueryMultiUnlockHandler srvAb keyFoo =
      (GbReply.valNum (trSearchCallback srvAb.tree keyFoo (gbMultiUnlockCallback srvAb)).1,
       (trSearchCallback srvAb.tree keyFoo (gbMultiUnlockCallback srvAb)).2) ∧
    (gbMultiGetWalk srvAb keyFoo (-1)).1 = GbReply.valKV (mgetKept srvAb keyFoo (-1)) ∧
    gbQueryKeysHandler srvAb keyFoo =
      (GbReply.valKV (keysReplyPairs srvAb keyFoo), srvAb.tree) := by
  refine ⟨?_, ?_, ?_, ?_, ?_, ?_, ?_, ?_, ?_, ?_⟩
  · exact (bulk_reply_shape_amended srvBase noLzf payloadPatK).1
      payloadPatK (by decide)
  · exact ((bulk_reply_shape_amended srvAb noLzf payloadFooFive).2.1
      keyFoo [53] (by decide) (by decide)).1 (by decide)
  · exact ((bulk_reply_shape_amended srvBase noLzf payloadFooFive).2.1
      keyFoo [53] (by decide) (by decide)).2 (by decide)
  · exact ((bulk_reply_shape_amended srvAb noLzf payloadFooFive).2.2.1
      keyFoo [53] 5 (by decide) (by decide)).1 (by decide)
  · exact ((bulk_reply_shape_amended srvFortyTwo noLzf keyFoo).2.2.2.1
      keyFoo 1 (by decide)).1 (by decide)
  · exact ((bulk_reply_shape_amended srvAb noLzf keyFoo).2.2.2.2.1
      keyFoo (by decide)).1 (by decide)
  · exact ((bulk_reply_shape_amended srvAb noLzf payloadFooFive).2.2.2.2.2.1
      keyFoo [53] 5 (by decide) (by decide)).1 (by decide)
  · exact ((bulk_reply_shape_amended srvAb noLzf keyFoo).2.2.2.2.2.2.1
      keyFoo (by decide)).1 (by decide)
  · exact ((bulk_reply_shape_amended srvAb noLzf keyFoo).2.2.2.2.2.2.2.1
      keyFoo (-1)).2 (by decide)
  · exact ((bulk_reply_shape_amended srvAb noLzf keyFoo).2.2.2.2.2.2.2.2
      keyFoo (by decide)).2 (by decide)

/-- C5 counterexample: INC on the valid, unlocked PLAIN item holding the
non-numeric bytes `ab` replies NAN, but the item is not left unchanged —
its last access time is touched (50 becomes 100) before the parse runs. -/
theorem inc_nan_touches_access_time :
    gbQueryIncDecHandler srvAb keyFoo 1 =
      (GbReply.nan, [(keyFoo, some { itemAb with last_access_time := 100 })]) ∧
    [(keyFoo, some { itemAb with last_access_time := 100 })] ≠ srvAb.tree := by
  decide

/-- C5 amended: INC/DEC on a present, valid, unlocked PLAIN item whose
bytes parse as `n` frees the buffer and stores the inline integer
`n + delta` with NUMBER encoding and machine-word size, replying VAL with
the item; when the bytes do not parse the reply is NAN and the item's
data, size, encoding, ttl and lock are unchanged, but its last access time
is set to the current clock (the touch precedes the parse). -/
theorem incdec_plain_promotion_amended (srv : GbServer) (p k : List Nat)
    (item : GbItem) (bytes : List Nat) (delta : Int)
    (hp : gbParseKey srv p = some k)
    (hs : trFindNode srv.tree k = some (some item))
    (henc : item.encoding = GbEnc.plain)
    (hdata : item.data = GbData.buf bytes)
    (hexp : gbItemExpired srv item = false)
    (hlock : gbItemIsLocked srv item = false) :
    (∀ n, gbQueryParseLong bytes = some n →
      gbQueryIncDecHandler srv p delta =
        (GbReply.valItem { item with last_access_time := srv.time,
                                     encoding := GbEnc.number,
                                     data := GbData.num (n + delta),
                                     size := 8 },
         setSlot srv.tree k
           (some { item with last_access_time := srv.time,
                             encoding := GbEnc.number,
                             data := GbData.num (n + delta),
                             size := 8 })))
    ∧ (gbQueryParseLong bytes = none →
      gbQueryIncDecHandler srv p delta =
        (GbReply.nan,
         setSlot srv.tree k
           (some { item with last_access_time := srv.time }))) := by
  constructor
  · intro n hn
    unfold gbQueryIncDecHandler
    simp [hp, hs, hexp, hlock, henc, hdata, GbData.bytes, hn]
  · intro hn
    unfold gbQueryIncDecHandler
    simp [hp, hs, hexp, hlock, henc, hdata, GbData.bytes, hn]

/-- C5 witness: INC on a PLAIN item holding `42` promotes it to the inline
integer 43; INC on the PLAIN item holding `ab` replies NAN with only the
access time touched. -/
theorem incdec_plain_promotion_amended_witness :
    gbQueryIncDecHandler srvFortyTwo keyFoo 1 =
      (GbReply.valItem { itemFortyTwo with last_access_time := 100,
                                           encoding := GbEnc.number,
                                           data := GbData.num 43, size := 8 },
       setSlot srvFortyTwo.tree keyFoo
         (some { itemFortyTwo with last_access_time := 100,
                                   encoding := GbEnc.number,
                                   data := GbData.num 43, size := 8 })) ∧
    gbQueryIncDecHandler srvAb keyFoo 1 =
      (GbReply.nan,
       setSlot srvAb.tree keyFoo
         (some { itemAb with last_access_time := 100 })) :=
  ⟨(incdec_plain_promotion_amended srvFortyTwo keyFoo keyFoo itemFortyTwo
      [52, 50] 1 (by decide) (by decide) (by decide) (by decide) (by decide)
      (by decide)).1 42 (by decide),
   (incdec_plain_promotion_amended srvAb keyFoo keyFoo itemAb
      [97, 98] 1 (by decide) (by decide) (by decide) (by decide) (by decide)
      (by decide)).2 (by decide)⟩

/-- C6: INC or DEC on an absent key — no node, or a node whose slot is
nulled — creates a fresh NUMBER item holding 1 (whatever the sign of the
delta), stores it at the key, and replies VAL with that item. -/
theorem incdec_absent_creates_one (srv : GbServer) (p k : List Nat)
    (delta : Int)
    (hp : gbParseKey srv p = some k)
    (habs : trFind srv.tree k = none) :
    (gbQueryIncDecHandler srv p delta).1 =
      GbReply.valItem { data := GbData.num 1, size := 8,
                        encoding := GbEnc.number, time := srv.time,
                        last_access_time := srv.time, ttl := -1, lock := 0 } ∧
    trFindNode (gbQueryIncDecHandler srv p delta).2 k =
      some (some { data := GbData.num 1, size := 8,
                   encoding := GbEnc.number, time := srv.time,
                   last_access_time := srv.time, ttl := -1, lock := 0 }) := by
  have hbind : (trFindNode srv.tree k).bind id = none := habs
  unfold gbQueryIncDecHandler
  simp only [hp, hbind]
  cases hnode : trFindNode srv.tree k with
  | some slot =>
      constructor
      · simp [gbCreateItem]
      · simp only [gbCreateItem]
        exact trFindNode_setSlot_self srv.tree k _ (by rw [hnode]; rfl)
  | none =>
      constructor
      · simp [gbCreateItem]
      · simp only [gbCreateItem, trInsert, hnode]
        exact trFindNode_append_self srv.tree k _ hnode

/-- C6 witness: DEC on the absent key `foo` of the empty server creates the
NUMBER item 1. -/
theorem incdec_absent_creates_one_witness :
    (gbQueryIncDecHandler srvBase keyFoo (-1)).1 =
      GbReply.valItem { data := GbData.num 1, size := 8,
                        encoding := GbEnc.number, time := 100,
                        last_access_time := 100, ttl := -1, lock := 0 } ∧
    trFindNode (gbQueryIncDecHandler srvBase keyFoo (-1)).2 keyFoo =
      some (some { data := GbData.num 1, size := 8,
                   encoding := GbEnc.number, time := 100,
                   last_access_time := 100, ttl := -1, lock := 0 }) :=
  incdec_absent_creates_one srvBase keyFoo keyFoo (-1) (by decide) (by decide)

/-- C7 counterexample: the input `0x` (bytes 48, 120) contains a non-digit
after the optional sign, yet the parser succeeds (with value 0), because
any first byte `0` short-circuits — not only the single string `0`. -/
theorem parse_long_zero_short_circuit :
    gbQueryParseLong [48, 120] = some 0 ∧
    parseAcceptSpec [48, 120] = false := by
  decide

/-- C7 amended: for every non-empty input, the parser short-circuits to 0
whenever the first byte is ASCII `0` (whatever follows); for any other
first byte it succeeds exactly when every byte after the optional leading
minus is an ASCII digit. -/
theorem parse_long_acceptance_amended (c : Nat) (rest : List Nat) :
    (c = 48 → gbQueryParseLong (c :: rest) = some 0)
    ∧ (c ≠ 48 →
      (gbQueryParseLong (c :: rest)).isSome = parseAcceptSpec (c :: rest)) := by
  constructor
  · intro h; subst h; rfl
  · intro h
    by_cases h45 : c = 45
    · subst h45
      simp [gbQueryParseLong, parseAcceptSpec, parseDigits_isSome]
    · simp [gbQueryParseLong, parseAcceptSpec, h, h45, parseDigits_isSome]

/-- C7 amended witness: `0x` parses to 0; `1a` (bytes 49, 97) agrees with
the digits-only criterion (both reject). -/
theorem parse_long_acceptance_amended_witness :
    gbQueryParseLong [48, 120] = some 0 ∧
    (gbQueryParseLong [49, 97]).isSome = parseAcceptSpec [49, 97] :=
  ⟨(parse_long_acceptance_amended 48 [120]).1 rfl,
   (parse_long_acceptance_amended 49 [97]).2 (by decide)⟩

/-- C8 counterexample: DEL on the key holding an item that is expired
(ttl 10, created at 0, clock 100) but locked (`lock = -1`) replies LOCKED,
not NOT_FOUND, and the expired item survives in its slot — the lock check
runs before the expiry check. -/
theorem del_expired_locked_replies_locked :
    gbQueryDelHandler srvLockedExpired keyFoo =
      (GbReply.locked, srvLockedExpired.tree) ∧
    gbItemExpired srvLockedExpired itemBarLockedExpired = true ∧
    GbReply.locked ≠ GbReply.notFound ∧
    trFind srvLockedExpired.tree keyFoo = some itemBarLockedExpired := by
  decide

/-- C8 amended: DEL applies the lock check first — a locked item replies
LOCKED whatever its expiry state; only for an unlocked item does the expiry
check run, replying NOT_FOUND with the item destroyed and the slot nulled
when it is expired. -/
theorem del_lock_before_expiry_amended (srv : GbServer) (p k : List Nat)
    (item : GbItem)
    (hp : gbParseKey srv p = some k)
    (hs : trFindNode srv.tree k = some (some item)) :
    (gbItemIsLocked srv item = true →
      gbQueryDelHandler srv p = (GbReply.locked, srv.tree))
    ∧ (gbItemIsLocked srv item = false → gbItemExpired srv item = true →
      gbQueryDelHandler srv p = (GbReply.notFound, setSlot srv.tree k none)) := by
  unfold gbQueryDelHandler
  simp only [hp, hs]
  constructor
  · intro hl; simp [hl]
  · intro hl hexp; simp [hl, hexp]

/-- C8 amended witness: DEL against the expired locked item replies LOCKED;
DEL against the expired unlocked item replies NOT_FOUND and nulls the
slot. -/
theorem del_lock_before_expiry_amended_witness :
    gbQueryDelHandler srvLockedExpired keyFoo =
      (GbReply.locked, srvLockedExpired.tree) ∧
    gbQueryDelHandler srvExpired keyFoo =
      (GbReply.notFound, setSlot srvExpired.tree keyFoo none) :=
  ⟨(del_lock_before_expiry_amended srvLockedExpired keyFoo keyFoo
      itemBarLockedExpired (by decide) (by decide)).1 (by decide),
   (del_lock_before_expiry_amended srvExpired keyFoo keyFoo
      itemBar (by decide) (by decide)).2 (by decide) (by decide)⟩

/-- C10: MGET treats an optional second token as a numeric limit — when the
token is present but does not parse as an integer the reply is NAN with the
index untouched (no walk happens); when the token is absent the handler
runs the walk with limit -1 (unlimited). -/
theorem mget_optional_limit (srv : GbServer) :
    (∀ p expr v, gbParseKeyAndOptionalValue srv p = some (expr, some v) →
      gbQueryParseLong v = none →
      gbQueryMultiGetHandler srv p = (GbReply.nan, srv.tree))
    ∧ (∀ p expr, gbParseKeyAndOptionalValue srv p = some (expr, none) →
      gbQueryMultiGetHandler srv p = gbMultiGetWalk srv expr (-1)) := by
  constructor
  · intro p expr v hp hn
    unfold gbQueryMultiGetHandler
    simp [hp, hn]
  · intro p expr hp
    unfold gbQueryMultiGetHandler
    simp [hp]

/-- C10 witness: `k* q` replies NAN without touching the index; `k*` alone
runs the unlimited walk. -/
theorem mget_optional_limit_witness :
    gbQueryMultiGetHandler srvBase payloadPatKStarQ =
      (GbReply.nan, srvBase.tree) ∧
    gbQueryMultiGetHandler srvBase payloadPatKStar =
      gbMultiGetWalk srvBase [107, 42] (-1) :=
  ⟨(mget_optional_limit srvBase).1 payloadPatKStarQ [107, 42] [113]
      (by decide) (by decide),
   (mget_optional_limit srvBase).2 payloadPatKStar [107, 42] (by decide)⟩

end Gibson
